import Mathlib

/-!
Verification development for the `react-multi-captcha` repository.

Part 1 embeds the two script loaders (`src/loaders/googleLoader.ts` and
`src/loaders/cloudflareLoader.ts`).  Each loader keeps three module-level
variables (`scriptLoaded`, `scriptLoading`, `loadPromise`); the synchronous
body of `loadGoogleScript` / `loadCloudflareScript` is embedded as a pure
state transformer, and the asynchronous `onload` polling/timeout logic
(lines 45-68 of `googleLoader.ts`, lines 42-64 of `cloudflareLoader.ts`)
is embedded as an outcome function over the trajectory of the provider's
global API object.

Promises are represented by numeric identifiers into a status registry,
so that "two callers receive the same pending promise" is the statement
that both calls return the same identifier whose registered status is
still pending.
-/

/-- The state of `window.grecaptcha`: absent, present without an `execute`
member, or present with `execute`.  The loader's checks distinguish
`window.grecaptcha` (truthiness) from `grecaptcha && grecaptcha.execute`. -/
inductive GApi
  | absent
  | presentNoExecute
  | present
deriving DecidableEq, Repr

/-- Truthiness of `(window as any).grecaptcha`. -/
def gPresent : GApi → Bool
  | .absent => false
  | _ => true

/-- Truthiness of `(window as any).grecaptcha && (window as any).grecaptcha.execute`. -/
def gReady : GApi → Bool
  | .present => true
  | _ => false

/-- Status of a JS promise created by a loader. -/
inductive PStatus
  | pendingP
  | resolvedP
  | rejectedP (msg : String)
deriving DecidableEq, Repr

/-- Module-level state of `googleLoader.ts` (and, with its own copy, of
`cloudflareLoader.ts`) together with the part of the document the loader
touches: the scripts it appended (`appendedSrcs`) and whether a script tag
matching the loader's `querySelector` is present (`scriptInDom`). -/
structure GState where
  scriptLoaded : Bool := false
  scriptLoading : Bool := false
  loadPromise : Option Nat := none
  promStatus : List PStatus := []
  appendedSrcs : List String := []
  scriptInDom : Bool := false
deriving DecidableEq, Repr

/-- Result of one synchronous call to a loader: either an immediately
resolved promise (`Promise.resolve()`), or a reference to the promise
stored in `loadPromise`. -/
inductive GLoadResult
  | resolvedNow
  | promiseRef (pid : Nat)
deriving DecidableEq, Repr

/-- The fresh module state: nothing loaded, nothing loading, no promise,
no script tag in the document. -/
def gFresh : GState := {}

def googleScriptSrc (siteKey : String) : String :=
  "https://www.google.com/recaptcha/api.js?render=" ++ siteKey

/-- Synchronous body of `loadGoogleScript` (`googleLoader.ts` lines 6-81),
given the current state of `window.grecaptcha`.  The promise executor runs
synchronously inside `new Promise`, so its effects are part of this
function; the `onload`/`onerror`/poll handlers are separate transformers
below. -/
def loadGoogleScript (siteKey : String) (api : GApi) (s : GState) :
    GState × GLoadResult :=
  -- lines 8-10: if already loaded and grecaptcha truthy, resolve immediately
  if s.scriptLoaded && gPresent api then (s, .resolvedNow)
  -- lines 13-15: if currently loading, return the existing promise
  else if s.scriptLoading && s.loadPromise.isSome then
    (s, .promiseRef (s.loadPromise.getD 0))
  -- lines 18-25: script tag already in DOM and grecaptcha truthy
  else if s.scriptInDom && gPresent api then
    ({ s with scriptLoaded := true }, .resolvedNow)
  else
    -- line 27: scriptLoading = true, then the promise executor (lines 29-78)
    let pid := s.promStatus.length
    if gReady api then
      -- lines 31-38: grecaptcha already available: resolve inside executor
      ({ s with scriptLoaded := true, scriptLoading := false,
                loadPromise := some pid,
                promStatus := s.promStatus ++ [.resolvedP] },
       .promiseRef pid)
    else
      -- lines 40-77: create the script element and append it to the head
      ({ s with scriptLoading := true, loadPromise := some pid,
                promStatus := s.promStatus ++ [.pendingP],
                appendedSrcs := s.appendedSrcs ++ [googleScriptSrc siteKey],
                scriptInDom := true },
       .promiseRef pid)

/-- `script.onload` handler, synchronous part (`googleLoader.ts` lines
46-47): sets `scriptLoaded = true` and `scriptLoading = false` before the
API object is known to be ready. -/
def googleScriptOnload (s : GState) : GState :=
  { s with scriptLoaded := true, scriptLoading := false }

/-- Outcome of the polling/timeout machinery started by `onload`. -/
inductive LoadOutcome
  | resolvedAt (t : Nat)
  | rejectedWith (msg : String)
deriving DecidableEq, Repr

def gTimeoutMsg : String := "Google reCAPTCHA failed to load"
def gFetchFailMsg : String := "Failed to load Google reCAPTCHA script"
def cfTimeoutMsg : String := "Cloudflare Turnstile failed to load"
def cfFetchFailMsg : String := "Failed to load Cloudflare Turnstile script"

/-- The times (ms after `onload`) at which the `setInterval(..., 100)` poll
fires before or at the 10-second timeout: 100, 200, ..., 10000.  The tick
due exactly at 10000 was registered before the `setTimeout(..., 10000)`
handler, so it runs first. -/
def pollTimes : List Nat := (List.range 100).map (fun k => 100 * (k + 1))

/-- Polling/timeout logic inside Google's `onload` (`googleLoader.ts`
lines 49-68), over a trajectory `api t` of `window.grecaptcha` at `t` ms
after `onload`.  The poll resolves at the first tick where
`grecaptcha && grecaptcha.execute` holds; otherwise at 10000 ms the
timeout resolves if `grecaptcha` alone is truthy and rejects otherwise. -/
def googleOnloadOutcome (api : Nat → GApi) : LoadOutcome :=
  match pollTimes.find? (fun t => gReady (api t)) with
  | some t => .resolvedAt t
  | none =>
    if gPresent (api 10000) then .resolvedAt 10000
    else .rejectedWith gTimeoutMsg

/-- Effect of the settled `onload` machinery on the promise registry.
Neither the resolve nor the reject path of the timeout touches
`scriptLoaded`, `scriptLoading` or `loadPromise` (only `onerror`, below,
clears them). -/
def googleSettle (api : Nat → GApi) (s : GState) : GState :=
  match s.loadPromise with
  | none => s
  | some pid =>
    match googleOnloadOutcome api with
    | .resolvedAt _ => { s with promStatus := s.promStatus.set pid .resolvedP }
    | .rejectedWith m => { s with promStatus := s.promStatus.set pid (.rejectedP m) }

/-- `script.onerror` handler (`googleLoader.ts` lines 71-75): clears
`scriptLoading` and the cached promise, rejects with the fetch-failure
message. -/
def googleScriptOnError (s : GState) : GState :=
  { s with scriptLoading := false, loadPromise := none,
           promStatus := match s.loadPromise with
             | some pid => s.promStatus.set pid (.rejectedP gFetchFailMsg)
             | none => s.promStatus }

/-- `resetGoogleScript` (`googleLoader.ts` lines 84-88). -/
def resetGoogleScript (s : GState) : GState :=
  { s with scriptLoaded := false, scriptLoading := false, loadPromise := none }

def cloudflareScriptSrc : String :=
  "https://challenges.cloudflare.com/turnstile/v0/api.js"

/-- Synchronous body of `loadCloudflareScript` (`cloudflareLoader.ts`
lines 5-79).  Identical structure to the Google loader except that every
readiness check is truthiness of `window.turnstile` alone (there is no
`execute`-membership check anywhere in this loader). -/
def loadCloudflareScript (turnstilePresent : Bool) (s : GState) :
    GState × GLoadResult :=
  if s.scriptLoaded && turnstilePresent then (s, .resolvedNow)
  else if s.scriptLoading && s.loadPromise.isSome then
    (s, .promiseRef (s.loadPromise.getD 0))
  else if s.scriptInDom && turnstilePresent then
    ({ s with scriptLoaded := true }, .resolvedNow)
  else
    let pid := s.promStatus.length
    if turnstilePresent then
      ({ s with scriptLoaded := true, scriptLoading := false,
                loadPromise := some pid,
                promStatus := s.promStatus ++ [.resolvedP] },
       .promiseRef pid)
    else
      ({ s with scriptLoading := true, loadPromise := some pid,
                promStatus := s.promStatus ++ [.pendingP],
                appendedSrcs := s.appendedSrcs ++ [cloudflareScriptSrc],
                scriptInDom := true },
       .promiseRef pid)

/-- Polling/timeout logic inside Cloudflare's `onload`
(`cloudflareLoader.ts` lines 47-64): poll and timeout both test only
truthiness of `window.turnstile`. -/
def cfOnloadOutcome (api : Nat → Bool) : LoadOutcome :=
  match pollTimes.find? (fun t => api t) with
  | some t => .resolvedAt t
  | none =>
    if api 10000 then .resolvedAt 10000
    else .rejectedWith cfTimeoutMsg

/-- `n` sequential calls to `loadGoogleScript` with site key "site" while
`window.grecaptcha` stays absent (no load has completed), collecting the
returned results in order. -/
def loadCallsG : Nat → GState → GState × List GLoadResult
  | 0, s => (s, [])
  | n + 1, s =>
    let (s1, r) := loadGoogleScript "site" .absent s
    let (s2, rs) := loadCallsG n s1
    (s2, r :: rs)

/-- `n` sequential calls to `loadCloudflareScript` while `window.turnstile`
stays absent. -/
def loadCallsCF : Nat → GState → GState × List GLoadResult
  | 0, s => (s, [])
  | n + 1, s =>
    let (s1, r) := loadCloudflareScript false s
    let (s2, rs) := loadCallsCF n s1
    (s2, r :: rs)

/-- The Google loader state after the first call from the fresh state
with the API absent: loading, promise 0 pending, exactly one script
appended. -/
def gAfterOne : GState :=
  { scriptLoading := true, loadPromise := some 0,
    promStatus := [.pendingP],
    appendedSrcs := [googleScriptSrc "site"], scriptInDom := true }

/-- The Cloudflare loader state after the first call from the fresh state
with the API absent. -/
def cfAfterOne : GState :=
  { scriptLoading := true, loadPromise := some 0,
    promStatus := [.pendingP],
    appendedSrcs := [cloudflareScriptSrc], scriptInDom := true }

lemma loadG_first : loadGoogleScript "site" .absent gFresh = (gAfterOne, .promiseRef 0) := by
  decide

lemma loadG_pending : loadGoogleScript "site" .absent gAfterOne = (gAfterOne, .promiseRef 0) := by
  decide

lemma loadCF_first : loadCloudflareScript false gFresh = (cfAfterOne, .promiseRef 0) := by
  decide

lemma loadCF_pending : loadCloudflareScript false cfAfterOne = (cfAfterOne, .promiseRef 0) := by
  decide

lemma loadCallsG_steady (n : Nat) :
    loadCallsG n gAfterOne = (gAfterOne, List.replicate n (.promiseRef 0)) := by
  induction n with
  | zero => rfl
  | succ n ih => simp [loadCallsG, loadG_pending, ih, List.replicate_succ]

lemma loadCallsCF_steady (n : Nat) :
    loadCallsCF n cfAfterOne = (cfAfterOne, List.replicate n (.promiseRef 0)) := by
  induction n with
  | zero => rfl
  | succ n ih => simp [loadCallsCF, loadCF_pending, ih, List.replicate_succ]

/-- C2: for every sequence of `n + 1` calls to `load()` for the same
provider issued while no load has completed (the provider API object is
absent throughout), every caller receives the same promise reference
(promise 0), that promise is still pending, and exactly one script element
has been inserted into the document — for both the Google and the
Cloudflare loader. -/
theorem loader_single_flight (n : Nat) :
    (loadCallsG (n + 1) gFresh).2 = List.replicate (n + 1) (.promiseRef 0) ∧
    (loadCallsG (n + 1) gFresh).1.appendedSrcs = [googleScriptSrc "site"] ∧
    (loadCallsG (n + 1) gFresh).1.promStatus = [.pendingP] ∧
    (loadCallsCF (n + 1) gFresh).2 = List.replicate (n + 1) (.promiseRef 0) ∧
    (loadCallsCF (n + 1) gFresh).1.appendedSrcs = [cloudflareScriptSrc] ∧
    (loadCallsCF (n + 1) gFresh).1.promStatus = [.pendingP] := by
  have hg : loadCallsG (n + 1) gFresh =
      (gAfterOne, .promiseRef 0 :: List.replicate n (.promiseRef 0)) := by
    simp [loadCallsG, loadG_first, loadCallsG_steady]
  have hc : loadCallsCF (n + 1) gFresh =
      (cfAfterOne, .promiseRef 0 :: List.replicate n (.promiseRef 0)) := by
    simp [loadCallsCF, loadCF_first, loadCallsCF_steady]
  refine ⟨?_, ?_, ?_, ?_, ?_, ?_⟩ <;>
    simp [hg, hc, gAfterOne, cfAfterOne, List.replicate_succ]

/-- C2 witness: the single-flight theorem instantiated at three calls. -/
theorem loader_single_flight_witness :
    (loadCallsG 3 gFresh).2 = List.replicate 3 (.promiseRef 0) ∧
    (loadCallsG 3 gFresh).1.appendedSrcs = [googleScriptSrc "site"] := by
  have h := loader_single_flight 2
  exact ⟨h.1, h.2.1⟩

/-- `script.onload` handler of the Cloudflare loader, synchronous part
(`cloudflareLoader.ts` lines 43-44): sets `cfScriptLoaded = true` and
`cfScriptLoading = false` before the API object is known to be ready. -/
def cfScriptOnload (s : GState) : GState :=
  { s with scriptLoaded := true, scriptLoading := false }

/-- Effect of Cloudflare's settled `onload` machinery on the promise
registry (`cloudflareLoader.ts` lines 47-64); like the Google loader,
neither path of the timeout touches the flags or the cached promise. -/
def cfSettle (api : Nat → Bool) (s : GState) : GState :=
  match s.loadPromise with
  | none => s
  | some pid =>
    match cfOnloadOutcome api with
    | .resolvedAt _ => { s with promStatus := s.promStatus.set pid .resolvedP }
    | .rejectedWith m => { s with promStatus := s.promStatus.set pid (.rejectedP m) }

/-- Cloudflare `script.onerror` handler (`cloudflareLoader.ts` lines
67-73): clears `cfScriptLoading` and the cached promise, rejects with the
fetch-failure message. -/
def cfScriptOnError (s : GState) : GState :=
  { s with scriptLoading := false, loadPromise := none,
           promStatus := match s.loadPromise with
             | some pid => s.promStatus.set pid (.rejectedP cfFetchFailMsg)
             | none => s.promStatus }

lemma pollTimes_le : ∀ t ∈ pollTimes, t ≤ 10000 := by decide

lemma googleOnloadOutcome_timeout (gapi : Nat → GApi)
    (hg : ∀ t, t ≤ 10000 → gapi t = .absent) :
    googleOnloadOutcome gapi = .rejectedWith gTimeoutMsg := by
  have hfind : pollTimes.find? (fun t => gReady (gapi t)) = none := by
    rw [List.find?_eq_none]
    intro t ht
    rw [hg t (pollTimes_le t ht)]
    decide
  unfold googleOnloadOutcome
  rw [hfind, hg 10000 (by decide)]
  rfl

lemma cfOnloadOutcome_timeout (capi : Nat → Bool)
    (hc : ∀ t, t ≤ 10000 → capi t = false) :
    cfOnloadOutcome capi = .rejectedWith cfTimeoutMsg := by
  have hfind : pollTimes.find? (fun t => capi t) = none := by
    rw [List.find?_eq_none]
    intro t ht
    rw [hc t (pollTimes_le t ht)]
    decide
  unfold cfOnloadOutcome
  rw [hfind, hc 10000 (by decide)]
  rfl

lemma googleSettle_promStatus (gapi : Nat → GApi) (s : GState) (pid : Nat)
    (hp : s.loadPromise = some pid)
    (ho : googleOnloadOutcome gapi = .rejectedWith gTimeoutMsg) :
    (googleSettle gapi s).promStatus =
      s.promStatus.set pid (.rejectedP gTimeoutMsg) := by
  unfold googleSettle
  rw [hp, ho]

lemma cfSettle_promStatus (capi : Nat → Bool) (s : GState) (pid : Nat)
    (hp : s.loadPromise = some pid)
    (ho : cfOnloadOutcome capi = .rejectedWith cfTimeoutMsg) :
    (cfSettle capi s).promStatus =
      s.promStatus.set pid (.rejectedP cfTimeoutMsg) := by
  unfold cfSettle
  rw [hp, ho]

/-- C4: for every trajectory on which the script tag loaded (its
`onload` handler fired) but the provider's global API object never appears
within the 10-second bound, the promise returned by the fresh `load()`
call ends rejected with the timeout-classified message, while the
`onerror` (fetch-failure) path rejects that same promise with the generic
message instead — and the two messages are distinguishable.  Proved for
both loaders. -/
theorem loader_timeout_classified (gapi : Nat → GApi) (capi : Nat → Bool)
    (hg : ∀ t, t ≤ 10000 → gapi t = .absent)
    (hc : ∀ t, t ≤ 10000 → capi t = false) :
    googleOnloadOutcome gapi = .rejectedWith gTimeoutMsg ∧
    cfOnloadOutcome capi = .rejectedWith cfTimeoutMsg ∧
    (googleSettle gapi
      (googleScriptOnload (loadGoogleScript "site" .absent gFresh).1)).promStatus =
      [.rejectedP gTimeoutMsg] ∧
    (cfSettle capi
      (cfScriptOnload (loadCloudflareScript false gFresh).1)).promStatus =
      [.rejectedP cfTimeoutMsg] ∧
    (googleScriptOnError (loadGoogleScript "site" .absent gFresh).1).promStatus =
      [.rejectedP gFetchFailMsg] ∧
    (cfScriptOnError (loadCloudflareScript false gFresh).1).promStatus =
      [.rejectedP cfFetchFailMsg] ∧
    gTimeoutMsg ≠ gFetchFailMsg ∧ cfTimeoutMsg ≠ cfFetchFailMsg := by
  have hgo := googleOnloadOutcome_timeout gapi hg
  have hco := cfOnloadOutcome_timeout capi hc
  refine ⟨hgo, hco, ?_, ?_, by decide, by decide, by decide, by decide⟩
  · rw [googleSettle_promStatus gapi _ 0 (by decide) hgo]
    decide
  · rw [cfSettle_promStatus capi _ 0 (by decide) hco]
    decide

/-- C4 witness: the timeout theorem at the constantly-absent trajectories. -/
theorem loader_timeout_classified_witness :
    googleOnloadOutcome (fun _ => .absent) = .rejectedWith gTimeoutMsg ∧
    cfOnloadOutcome (fun _ => false) = .rejectedWith cfTimeoutMsg ∧
    (googleSettle (fun _ => .absent)
      (googleScriptOnload (loadGoogleScript "site" .absent gFresh).1)).promStatus =
      [.rejectedP gTimeoutMsg] :=
  ⟨(loader_timeout_classified (fun _ => .absent) (fun _ => false)
      (fun _ _ => rfl) (fun _ _ => rfl)).1,
   (loader_timeout_classified (fun _ => .absent) (fun _ => false)
      (fun _ _ => rfl) (fun _ _ => rfl)).2.1,
   (loader_timeout_classified (fun _ => .absent) (fun _ => false)
      (fun _ _ => rfl) (fun _ _ => rfl)).2.2.1⟩

/-- The Google loader state after: one fresh `load()` (script appended),
its `onload` firing, and the 10-second timeout rejecting because
`window.grecaptcha` never appeared. -/
def gAfterTimeout : GState :=
  googleSettle (fun _ => .absent)
    (googleScriptOnload (loadGoogleScript "site" .absent gFresh).1)

/-- C8: after a `load()` whose script fired `onload` but whose promise was
rejected by the 10-second timeout, the module-level `scriptLoaded` flag is
`true`, `scriptLoading` is `false`, and the cached (now rejected) promise
is still stored; the provider API object is still absent, so a subsequent
`load()` falls through every early-return check and appends a second
script element with the same URL, returning a fresh promise. -/
theorem loader_duplicate_script_after_timeout :
    gAfterTimeout.scriptLoaded = true ∧
    gAfterTimeout.scriptLoading = false ∧
    gAfterTimeout.loadPromise = some 0 ∧
    gAfterTimeout.promStatus = [.rejectedP gTimeoutMsg] ∧
    (loadGoogleScript "site" .absent gAfterTimeout).2 = .promiseRef 1 ∧
    (loadGoogleScript "site" .absent gAfterTimeout).1.appendedSrcs =
      [googleScriptSrc "site", googleScriptSrc "site"] := by
  refine ⟨by decide, by decide, by decide, by decide, by decide, by decide⟩

/-- C9: on the trajectory where `window.grecaptcha` exists throughout but
`grecaptcha.execute` never appears, the 100 ms poll (which requires both)
never fires, yet the 10-second timeout (which tests `grecaptcha` alone)
resolves the load promise at the timeout boundary — so the promise
resolves even though `execute` is unavailable.  On the fully-ready
trajectory the poll resolves at the first tick instead. -/
theorem google_timeout_resolves_without_execute :
    googleOnloadOutcome (fun _ => .presentNoExecute) = .resolvedAt 10000 ∧
    gReady .presentNoExecute = false ∧
    gPresent .presentNoExecute = true ∧
    googleOnloadOutcome (fun _ => .present) = .resolvedAt 100 := by
  refine ⟨by decide, by decide, by decide, by decide⟩

/-!
Part 2 embeds the component `src/components/Captcha.tsx` as a discrete
event simulator over the single-threaded JS event loop.

Modelling choices, all read off the source:
* The `useEffect` body (lines 80-211) schedules `initCaptcha` on a 100 ms
  timer and returns a cleanup that sets the run's `isMounted` flag to
  false, clears that timer, and tears down a rendered Turnstile widget.
* The effect's dependency array (lines 202-211) contains `isInitialized`,
  so any `setIsInitialized` call that changes the value re-runs the
  effect: cleanup of the active run, then a new run whose `initCaptcha`
  closure captures the new `isInitialized` value.  React flushes this
  after the synchronous handler that called `setIsInitialized`, which the
  simulator performs at the end of the current event.
* `setIsInitialized` with an unchanged value does not re-render, hence
  does not re-run the effect.  A `setIsInitialized` call on an unmounted
  component performs no update but is counted in `setStateAfterUnmount`.
* `await` on an already-resolved promise and the explicit
  `setTimeout`-based sleeps are events on the queue; ties in time are
  broken by scheduling order.
* Provider interactions (`grecaptcha.execute`, `turnstile.render` /
  `execute` / `reset` / `remove`) are recorded in a timestamped trace;
  provider tokens are issued as "tok0", "tok1", ... in order.
-/

inductive Provider
  | googleV3
  | cloudflareTurnstile
deriving DecidableEq, Repr

inductive CMode
  | invisible
  | checkbox
deriving DecidableEq, Repr

/-- The component's props plus the environment the scenario fixes: whether
`window.grecaptcha?.execute` is truthy at the component's checks, whether
`window.turnstile` is truthy, how long the loader promise and the provider
`execute` calls take to settle. -/
structure Cfg where
  provider : Provider
  siteKey : String := "site"
  action : String := "default"
  mode : CMode := .invisible
  skip : Bool := false
  grecaptchaReady : Bool := true
  turnstilePresent : Bool := true
  gLoadDelay : Nat := 0
  cfLoadDelay : Nat := 0
  gExecDelay : Nat := 200
  rExecDelay : Nat := 300
deriving DecidableEq, Repr

/-- Provider interactions, recorded with `turnstile.execute`'s argument as
the value of `widgetIdRef.current` at call time (which can be `none`,
i.e. `null`). -/
inductive PCall
  | gExecute (siteKey action : String)
  | tRender
  | tReset (wid : Nat)
  | tExecute (wid : Option Nat)
  | tRemove (wid : Nat)
deriving DecidableEq, Repr

/-- Queue events: timer callbacks, await-continuations of `initCaptcha`
(per effect run) and of `reset()`, and external stimuli (host calls,
provider callbacks). -/
inductive Event
  | initTimer (run : Nat) (capturedInit : Bool)
  | gLoaded (run : Nat)
  | gSleepDone (run : Nat)
  | gExecDone (run : Nat) (tok : String)
  | cfLoaded (run : Nat)
  | cfSleepDone (run : Nat)
  | cfAutoExecDue
  | resetGExecDone (tok : String)
  | resetCfExecDue
  | extReset
  | extUnmount
  | extTsSuccess (tok : String)
  | extTsExpired
  | extTsError
deriving DecidableEq, Repr

structure EvEntry where
  time : Nat
  seq : Nat
  ev : Event
deriving DecidableEq, Repr

/-- Full simulator state: component state (`isInitialized`), refs
(`widgetIdRef`), per-effect-run `isMounted` flags (`mountedRuns` holds the
runs whose flag is still true), the pending-event queue, and the observed
traces. -/
structure MState where
  now : Nat := 0
  nextSeq : Nat := 0
  events : List EvEntry := []
  isInitialized : Bool := false
  needsFlush : Bool := false
  widgetIdRef : Option Nat := none
  nextWidgetId : Nat := 0
  mountedRuns : List Nat := []
  runCounter : Nat := 0
  activeRun : Nat := 0
  activeTimer : Option Nat := none
  unmounted : Bool := false
  widgetCbRun : Option Nat := none
  verifyTrace : List String := []
  pcalls : List (Nat × PCall) := []
  errLog : List String := []
  nextToken : Nat := 0
  setStateAfterUnmount : Nat := 0
deriving DecidableEq, Repr

/-- Schedule an event `d` ms from now; returns its sequence number (used
as the timer id for `clearTimeout`). -/
def sched (d : Nat) (ev : Event) (s : MState) : MState × Nat :=
  ({ s with events := s.events ++ [⟨s.now + d, s.nextSeq, ev⟩],
            nextSeq := s.nextSeq + 1 },
   s.nextSeq)

def evLt (a b : EvEntry) : Bool :=
  a.time < b.time || (a.time == b.time && a.seq < b.seq)

/-- Pop the earliest event (by time, ties by scheduling order). -/
def popMin : List EvEntry → Option (EvEntry × List EvEntry)
  | [] => none
  | e :: es =>
    match popMin es with
    | none => some (e, [])
    | some (m, rest) => if evLt m e then some (m, e :: rest) else some (e, es)

/-- `setIsInitialized`: ignored (but counted) after unmount; a no-op when
the value is unchanged (React bails out, so the effect does not re-run);
otherwise updates the state and marks that the effect must be flushed at
the end of the current event. -/
def setIsInitialized (v : Bool) (s : MState) : MState :=
  if s.unmounted then { s with setStateAfterUnmount := s.setStateAfterUnmount + 1 }
  else if s.isInitialized == v then s
  else { s with isInitialized := v, needsFlush := true }

/-- What a Turnstile render callback does, as data: the values it passes
to `setIsInitialized` and to `onVerify`. -/
structure CbEffect where
  setStateCalls : List Bool
  verifyCalls : List String
deriving DecidableEq, Repr

/-- Turnstile success `callback` (`Captcha.tsx` lines 147-151): consults
the closure's `isMounted` flag and discards the token when it is false. -/
def tsCallback (isMounted : Bool) (token : String) : CbEffect :=
  if !isMounted then ⟨[], []⟩
  else ⟨[true], [token]⟩

/-- Turnstile `expired-callback` (`Captcha.tsx` lines 153-155): calls
`setIsInitialized(false)` without consulting the `isMounted` flag. -/
def tsExpiredCallback (_isMounted : Bool) : CbEffect := ⟨[false], []⟩

/-- Turnstile `error-callback` (`Captcha.tsx` lines 157-160): logs and
calls `setIsInitialized(false)` without consulting `isMounted`. -/
def tsErrorCallback (_isMounted : Bool) : CbEffect := ⟨[false], []⟩

def applyCbEffect (eff : CbEffect) (s : MState) : MState :=
  let s1 := eff.setStateCalls.foldl (fun t v => setIsInitialized v t) s
  { s1 with verifyTrace := s1.verifyTrace ++ eff.verifyCalls }

/-- The effect cleanup (`Captcha.tsx` lines 182-201): `isMounted = false`,
`clearTimeout(timeoutId)`, and for a Cloudflare widget with
`window.turnstile` present, `turnstile.remove(widgetId)` followed by
clearing the ref. -/
def cleanupEffect (c : Cfg) (s : MState) : MState :=
  let s := { s with mountedRuns := s.mountedRuns.filter (fun r => r != s.activeRun) }
  let s :=
    match s.activeTimer with
    | some tid =>
      { s with events := s.events.filter (fun e => e.seq != tid), activeTimer := none }
    | none => s
  if c.provider == .cloudflareTurnstile && c.turnstilePresent then
    match s.widgetIdRef with
    | some w => { s with pcalls := s.pcalls ++ [(s.now, .tRemove w)], widgetIdRef := none }
    | none => s
  else s

/-- Start a new effect run (`Captcha.tsx` lines 80-181): a fresh
`isMounted = true` flag and `setTimeout(initCaptcha, 100)`, whose closure
captures the current `isInitialized`. -/
def startEffect (s : MState) : MState :=
  let r := s.runCounter
  let (s1, tid) := sched 100 (.initTimer r s.isInitialized) s
  { s1 with runCounter := r + 1, activeRun := r,
            mountedRuns := s1.mountedRuns ++ [r], activeTimer := some tid }

/-- Re-run of the effect after a dependency change: cleanup, then setup. -/
def flushEffect (c : Cfg) (s : MState) : MState := startEffect (cleanupEffect c s)

def freshToken (s : MState) : String × MState :=
  ("tok" ++ toString s.nextToken, { s with nextToken := s.nextToken + 1 })

/-- `initCaptcha` up to its first await (`Captcha.tsx` lines 84-102 /
125-126): the skip branch reports the sentinel token and marks
initialized; the `isInitialized` early return uses the closure's captured
value; otherwise the provider script load is awaited. -/
def initCaptchaEv (c : Cfg) (run : Nat) (captured : Bool) (s : MState) : MState :=
  if c.skip then
    let s := { s with verifyTrace := s.verifyTrace ++ ["skipped"] }
    setIsInitialized true s
  else if captured then s
  else
    match c.provider with
    | .googleV3 => (sched c.gLoadDelay (.gLoaded run) s).1
    | .cloudflareTurnstile => (sched c.cfLoadDelay (.cfLoaded run) s).1

/-- Continuation after `await loadGoogleScript` (`Captcha.tsx` lines
103-105): bail if this run was unmounted, else sleep 500 ms. -/
def gLoadedEv (run : Nat) (s : MState) : MState :=
  if s.mountedRuns.contains run then (sched 500 (.gSleepDone run) s).1 else s

/-- Continuation after the 500 ms settle sleep (`Captcha.tsx` lines
107-119): no `isMounted` check here; if `grecaptcha?.execute` is truthy,
call it (the token arrives after `gExecDelay`), else log an error. -/
def gSleepDoneEv (c : Cfg) (run : Nat) (s : MState) : MState :=
  if c.grecaptchaReady then
    let (tok, s) := freshToken s
    let s := { s with pcalls := s.pcalls ++ [(s.now, .gExecute c.siteKey c.action)] }
    (sched c.gExecDelay (.gExecDone run tok) s).1
  else { s with errLog := s.errLog ++ ["grecaptcha.execute not available"] }

/-- Continuation after `grecaptcha.execute` resolves (`Captcha.tsx` lines
113-116): only a still-mounted run reports the token. -/
def gExecDoneEv (run : Nat) (tok : String) (s : MState) : MState :=
  if s.mountedRuns.contains run then
    let s := setIsInitialized true s
    { s with verifyTrace := s.verifyTrace ++ [tok] }
  else s

/-- Continuation after `await loadCloudflareScript` (`Captcha.tsx` lines
127-129). -/
def cfLoadedEv (run : Nat) (s : MState) : MState :=
  if s.mountedRuns.contains run then (sched 500 (.cfSleepDone run) s).1 else s

/-- Continuation after the 500 ms settle sleep (`Captcha.tsx` lines
131-173): render the widget (registering callbacks that close over this
run's `isMounted`) when the container exists and no widget id is stored;
in invisible mode schedule the auto-execute 500 ms later. -/
def cfSleepDoneEv (c : Cfg) (run : Nat) (s : MState) : MState :=
  if !c.turnstilePresent then
    { s with errLog := s.errLog ++ ["Cloudflare Turnstile not loaded"] }
  else if s.widgetIdRef.isNone then
    let w := s.nextWidgetId
    let s := { s with widgetIdRef := some w, nextWidgetId := w + 1,
                      widgetCbRun := some run,
                      pcalls := s.pcalls ++ [(s.now, .tRender)] }
    if c.mode == .invisible then (sched 500 .cfAutoExecDue s).1 else s
  else s

/-- The invisible-mode auto-execute (`Captcha.tsx` line 168): reads
`widgetIdRef.current` at call time. -/
def cfAutoExecDueEv (s : MState) : MState :=
  { s with pcalls := s.pcalls ++ [(s.now, .tExecute s.widgetIdRef)] }

/-- The `reset()` method of the imperative handle (`Captcha.tsx` lines
34-77): a no-op under `skip`; otherwise `setIsInitialized(false)`, then
the Cloudflare branch (provider reset plus, in invisible mode, a 100 ms
delayed re-execute) and the Google branch (immediate re-execute whose
continuation reports the new token). -/
def handleReset (c : Cfg) (s : MState) : MState :=
  if c.skip then s
  else
    let s := setIsInitialized false s
    let s :=
      if c.provider == .cloudflareTurnstile then
        match s.widgetIdRef with
        | some w =>
          if c.turnstilePresent then
            let s := { s with pcalls := s.pcalls ++ [(s.now, .tReset w)] }
            if c.mode == .invisible then (sched 100 .resetCfExecDue s).1 else s
          else s
        | none => s
      else s
    if c.provider == .googleV3 then
      if c.grecaptchaReady then
        let (tok, s) := freshToken s
        let s := { s with pcalls := s.pcalls ++ [(s.now, .gExecute c.siteKey c.action)] }
        (sched c.rExecDelay (.resetGExecDone tok) s).1
      else s
    else s

/-- Continuation of `reset()`'s `await grecaptcha.execute` (`Captcha.tsx`
lines 63-68): no `isMounted` guard exists here in the source. -/
def resetGExecDoneEv (tok : String) (s : MState) : MState :=
  let s := setIsInitialized true s
  { s with verifyTrace := s.verifyTrace ++ [tok] }

/-- `reset()`'s delayed Turnstile re-execute (`Captcha.tsx` line 52):
reads `widgetIdRef.current` at call time. -/
def resetCfExecDueEv (s : MState) : MState :=
  { s with pcalls := s.pcalls ++ [(s.now, .tExecute s.widgetIdRef)] }

/-- Unmount: run the effect cleanup once and mark the component gone. -/
def unmountEv (c : Cfg) (s : MState) : MState :=
  { cleanupEffect c s with unmounted := true }

/-- Fire a registered Turnstile callback, passing it the current value of
the registering run's `isMounted` closure flag. -/
def tsFire (f : Bool → CbEffect) (s : MState) : MState :=
  match s.widgetCbRun with
  | some run => applyCbEffect (f (s.mountedRuns.contains run)) s
  | none => s

def procEvent (c : Cfg) (e : Event) (s : MState) : MState :=
  match e with
  | .initTimer run captured => initCaptchaEv c run captured s
  | .gLoaded run => gLoadedEv run s
  | .gSleepDone run => gSleepDoneEv c run s
  | .gExecDone run tok => gExecDoneEv run tok s
  | .cfLoaded run => cfLoadedEv run s
  | .cfSleepDone run => cfSleepDoneEv c run s
  | .cfAutoExecDue => cfAutoExecDueEv s
  | .resetGExecDone tok => resetGExecDoneEv tok s
  | .resetCfExecDue => resetCfExecDueEv s
  | .extReset => handleReset c s
  | .extUnmount => unmountEv c s
  | .extTsSuccess tok => tsFire (fun m => tsCallback m tok) s
  | .extTsExpired => tsFire tsExpiredCallback s
  | .extTsError => tsFire tsErrorCallback s

/-- Process the earliest pending event, then flush the effect re-run if a
`setIsInitialized` call changed the dependency during this event. -/
def stepSim (c : Cfg) (s : MState) : MState :=
  match popMin s.events with
  | none => s
  | some (e, rest) =>
    let s := { s with events := rest, now := e.time }
    let s := procEvent c e.ev s
    if s.needsFlush then flushEffect c { s with needsFlush := false } else s

def runSim (c : Cfg) : Nat → MState → MState
  | 0, s => s
  | n + 1, s => if s.events.isEmpty then s else runSim c n (stepSim c s)

/-- Pre-load the external stimuli (host calls / provider callbacks) into
the queue. -/
def initQueue (exts : List (Nat × Event)) : MState :=
  { events := exts.enum.map (fun p => ⟨p.2.1, p.1, p.2.2⟩),
    nextSeq := exts.length }

/-- Mount the component (first effect run) and run the event loop. -/
def mountAndRun (c : Cfg) (fuel : Nat) (exts : List (Nat × Event)) : MState :=
  runSim c fuel (startEffect (initQueue exts))

/-- The component's JSX output (`Captcha.tsx` lines 213-234): `null` under
`skip`, a container div for Cloudflare, `null` for Google. -/
inductive Rendered
  | nothing
  | turnstileContainer
deriving DecidableEq, Repr

def renderOutput (c : Cfg) : Rendered :=
  if c.skip then .nothing
  else if c.provider == .cloudflareTurnstile then .turnstileContainer
  else .nothing

/-- The object literal the component passes to `useImperativeHandle`
(`Captcha.tsx` lines 33-78): its only member is `reset`. -/
def imperativeHandle : List (String × (Cfg → MState → MState)) :=
  [("reset", handleReset)]

/-- Method names of the `CaptchaRef` interface (`types/index.ts`), the
ref type of the component's `forwardRef`. -/
def captchaRefMethods : List String := ["reset"]

/-- Method names of the `CaptchaHandle` interface (`types/index.ts`),
which declares `execute` but is not used by the component. -/
def captchaHandleMethods : List String := ["execute", "reset"]

def gExecCount (s : MState) : Nat :=
  (s.pcalls.filter (fun p =>
    match p.2 with
    | .gExecute _ _ => true
    | _ => false)).length

set_option maxRecDepth 100000

/-!
Part 3: scenario runs and the claim theorems about the component.
-/

/-- Skip-mode mount, Google provider configured. -/
def c1cfgG : Cfg := { provider := .googleV3, skip := true }

/-- Skip-mode mount, Cloudflare provider configured. -/
def c1cfgCF : Cfg := { provider := .cloudflareTurnstile, skip := true }

def c1runG : MState := mountAndRun c1cfgG 30 []

def c1runCF : MState := mountAndRun c1cfgCF 30 []

/-- C1 counterexample: mounting with skip=true does not invoke
`onVerify("skipped")` exactly once — the trace of the whole mount contains
it twice, because `setIsInitialized(true)` changes the effect's
`isInitialized` dependency, the effect re-runs, and the skip branch of
`initCaptcha` precedes the `isInitialized` early return. -/
theorem skip_mount_not_exactly_once :
    ¬ (c1runG.verifyTrace.count "skipped" = 1) := by decide

/-- C1 amended: for a mount with skip=true (either provider), the run
drains with `onVerify("skipped")` invoked exactly twice — once per run of
the initialization effect, which re-runs exactly once — and the component
renders no visible DOM. -/
theorem skip_mount_verify_twice_no_dom :
    c1runG.verifyTrace = ["skipped", "skipped"] ∧
    c1runG.events = [] ∧
    c1runG.runCounter = 2 ∧
    renderOutput c1cfgG = .nothing ∧
    c1runCF.verifyTrace = ["skipped", "skipped"] ∧
    renderOutput c1cfgCF = .nothing := by
  refine ⟨by decide, by decide, by decide, by decide, by decide, by decide⟩

/-- C3 counterexample: the imperative handle object exposed through
`useImperativeHandle` has no `execute` member, so the claim that the
handle provides both `execute()` and `reset()` is false. -/
theorem handle_lacks_execute :
    ¬ ∃ f, List.lookup "execute" imperativeHandle = some f := by
  intro hf
  obtain ⟨f, hf⟩ := hf
  have h0 : List.lookup "execute" imperativeHandle = none := rfl
  rw [h0] at hf
  exact Option.noConfusion hf

/-- C3 amended: the imperative handle provides only `reset()`; the
`CaptchaRef` type of the component's `forwardRef` declares only `reset`,
while the separate `CaptchaHandle` interface that declares `execute` is
not the one the component implements. -/
theorem handle_provides_reset_only :
    imperativeHandle.map Prod.fst = ["reset"] ∧
    List.lookup "reset" imperativeHandle = some handleReset ∧
    captchaRefMethods = ["reset"] ∧
    captchaHandleMethods = ["execute", "reset"] :=
  ⟨rfl, rfl, rfl, rfl⟩

/-- Initialized Google instance (loader already resolved, provider execute
takes 200 ms during initialization, `rE` ms during reset), with the host
calling `reset()` at t = 2000 ms. -/
def c5cfg (rE : Nat) : Cfg := { provider := .googleV3, rExecDelay := rE }

def c5run (rE : Nat) : MState := mountAndRun (c5cfg rE) 60 [(2000, .extReset)]

/-- The same instance left alone: the baseline of one `execute` and one
`onVerify` from mounting. -/
def c5base : MState := mountAndRun (c5cfg 300) 60 []

/-- C5 counterexample: when the provider's execute inside `reset()` takes
300 ms, a single `reset()` call triggers two new `grecaptcha.execute`
calls, not exactly one: the `setIsInitialized(false)` in `reset` re-runs
the initialization effect, whose `initCaptcha` (captured
`isInitialized = false`) is not cancelled in time and re-executes. -/
theorem google_reset_double_execute :
    gExecCount (c5run 300) = 3 ∧
    gExecCount c5base = 1 ∧
    ¬ (gExecCount (c5run 300) - gExecCount c5base = 1) := by
  refine ⟨by decide, by decide, by decide⟩

/-- C5 amended: a single `reset()` on an initialized GoogleV3 instance
triggers exactly one new `onVerify` invocation carrying the token of the
reset-path execution, and exactly one new `execute` call provided the
provider's execute promise resolves within the 100 ms effect timer delay
(then the re-triggered initialization effect is cancelled before it runs);
otherwise that effect issues a second execute call. -/
theorem google_reset_single_execute_when_fast (rE : Nat) (h : rE < 100) :
    gExecCount (c5run rE) = 2 ∧
    (c5run rE).verifyTrace = ["tok0", "tok1"] := by
  revert rE
  decide

/-- C5 witness: the amended theorem at a 50 ms reset execute. -/
theorem google_reset_single_execute_when_fast_witness :
    gExecCount (c5run 50) = 2 ∧ (c5run 50).verifyTrace = ["tok0", "tok1"] :=
  google_reset_single_execute_when_fast 50 (by decide)

/-- Cloudflare invisible instance with a rendered widget (id 0) that has
not yet verified, with the host calling `reset()` at t = 2000 ms. -/
def c6cfg : Cfg := { provider := .cloudflareTurnstile, mode := .invisible }

def c6run : MState := mountAndRun c6cfg 60 [(2000, .extReset)]

/-- A skip-mode Cloudflare configuration. -/
def c6skipCfg : Cfg := { provider := .cloudflareTurnstile, skip := true }

/-- C6: on a Cloudflare Turnstile instance with an existing widget
identifier (live widgets have `isInitialized = false`, so the
`setIsInitialized(false)` in `reset` changes nothing) and the provider API
present, `reset()` calls `turnstile.reset` on that identifier and, in
invisible mode, calls `turnstile.execute` on the same identifier 100 ms
later; no `onVerify` occurs.  With skip active, `reset()` is the identity:
no provider interaction and no `onVerify` invocation, from any state. -/
theorem cf_reset_calls_provider :
    c6run.pcalls = [(600, .tRender), (1100, .tExecute (some 0)),
                    (2000, .tReset 0), (2100, .tExecute (some 0))] ∧
    c6run.verifyTrace = [] ∧
    (∀ s : MState, handleReset c6skipCfg s = s) := by
  refine ⟨by decide, by decide, fun s => rfl⟩

/-- C6 witness: the skip-mode part of the theorem applied to the state of
a freshly mounted skip instance. -/
theorem cf_reset_calls_provider_witness :
    handleReset c6skipCfg (mountAndRun c6skipCfg 30 []) =
      mountAndRun c6skipCfg 30 [] :=
  cf_reset_calls_provider.2.2 (mountAndRun c6skipCfg 30 [])

/-- Google instance whose script load resolves only at t = 1001 + d, with
the host unmounting at t = 1000 — i.e. unmount strictly before the load
resolves. -/
def c7gcfg (d : Nat) : Cfg := { provider := .googleV3, gLoadDelay := 901 + d }

def c7grun (d : Nat) : MState := mountAndRun (c7gcfg d) 30 [(1000, .extUnmount)]

/-- Cloudflare invisible instance with a rendered widget, unmounted at
t = 2000. -/
def c7cfcfg : Cfg := { provider := .cloudflareTurnstile }

def c7cfrun : MState := mountAndRun c7cfcfg 60 [(2000, .extUnmount)]

/-- C7: unmounting before the script load resolves (any resolution time in
the 200 ms window after the unmount) leads to no `onVerify` call ever, no
logged failure, and no state update after unmount — the load continuation
observes the cleared `isMounted` flag and returns; and unmounting a
Cloudflare instance with a rendered widget tears the widget down with
`turnstile.remove(widgetId)` and clears the stored identifier. -/
theorem unmount_mid_init_safe (d : Nat) (h : d < 200) :
    (c7grun d).verifyTrace = [] ∧
    (c7grun d).errLog = [] ∧
    (c7grun d).setStateAfterUnmount = 0 ∧
    (c7grun d).unmounted = true ∧
    c7cfrun.pcalls = [(600, .tRender), (1100, .tExecute (some 0)),
                      (2000, .tRemove 0)] ∧
    c7cfrun.widgetIdRef = none ∧
    c7cfrun.verifyTrace = [] := by
  have hg : ∀ d, d < 200 →
      (c7grun d).verifyTrace = [] ∧ (c7grun d).errLog = [] ∧
      (c7grun d).setStateAfterUnmount = 0 ∧ (c7grun d).unmounted = true := by
    decide
  obtain ⟨h1, h2, h3, h4⟩ := hg d h
  exact ⟨h1, h2, h3, h4, by decide, by decide, by decide⟩

/-- C7 witness: the unmount theorem with the load resolving 1 ms after the
unmount. -/
theorem unmount_mid_init_safe_witness :
    (c7grun 0).verifyTrace = [] ∧ c7cfrun.widgetIdRef = none :=
  ⟨(unmount_mid_init_safe 0 (by decide)).1,
   (unmount_mid_init_safe 0 (by decide)).2.2.2.2.2.1⟩

/-- Cloudflare checkbox instance, rendered at t = 600, unmounted at
t = 1000, after which the provider fires the success, expired and error
callbacks. -/
def c10cfg : Cfg := { provider := .cloudflareTurnstile, mode := .checkbox }

def c10run : MState :=
  mountAndRun c10cfg 60
    [(1000, .extUnmount), (1200, .extTsSuccess "tokX"),
     (1500, .extTsExpired), (1600, .extTsError)]

/-- C10: the Turnstile success callback consults the `isMounted` flag and
discards its token after unmount (no `onVerify`, no state update), but the
expired- and error-callbacks ignore the flag entirely: each of the two
fired after unmount still performs a `setIsInitialized(false)` state
update, giving two post-unmount setState calls in the run. -/
theorem ts_callbacks_after_unmount :
    c10run.setStateAfterUnmount = 2 ∧
    c10run.verifyTrace = [] ∧
    tsCallback false "tokX" = ⟨[], []⟩ ∧
    (∀ m : Bool, tsExpiredCallback m = ⟨[false], []⟩) ∧
    (∀ m : Bool, tsErrorCallback m = ⟨[false], []⟩) := by
  refine ⟨by decide, by decide, rfl, fun m => rfl, fun m => rfl⟩

/-- C10 witness: the expired-callback conjunct applied at `m = false`. -/
theorem ts_callbacks_after_unmount_witness :
    tsExpiredCallback false = ⟨[false], []⟩ :=
  ts_callbacks_after_unmount.2.2.2.1 false
